import Mathlib

/-!
Verification of the trivia question-bank API (`backend/flaskr/__init__.py`)
against its specification. We shallowly embed the endpoints the claims
concern: the quiz-selection endpoint `play` (POST /quizzes), the pagination
helper `paginate_questions`, the delete endpoint `delete_question`, and the
category listing `get_questions_by_category`. Machine randomness is modelled
by an explicit stream of draw indices; the possibly non-terminating retry
loop in `play` is modelled with fuel, with a distinguished `diverges`
outcome for exhausted fuel.
-/

namespace Trivia

/-- A trivia question as stored: only the fields the quiz logic reads
(`id` and `category`). -/
structure Question where
  id : Nat
  category : Nat
deriving DecidableEq, Repr

/-- The question store visible to the endpoints: the `questions` table and
the ids of the rows of the `categories` table. -/
structure Store where
  questions : List Question
  categories : List Nat
deriving DecidableEq, Repr

/-- A store is well formed when every question's category reference is an
existing category id. -/
def Store.WF (s : Store) : Prop :=
  ∀ q ∈ s.questions, q.category ∈ s.categories

instance (s : Store) : Decidable s.WF := by
  unfold Store.WF; infer_instance

/-- A JSON scalar appearing as an element of `previous_questions`: either a
number (a question id) or a string. `Question.id in prev` in Python compares
with `==`, and a number never equals a string. -/
inductive JVal where
  | num (n : Nat)
  | str (s : String)
deriving DecidableEq, Repr

/-- The `previous_questions` field of the request body.
`null` models `body.get('previous_questions', None)` returning `None`
(field absent); `scalar` models a non-iterable JSON value (e.g. a number),
on which Python's `in` raises `TypeError`; `list` is a JSON array. -/
inductive PrevField where
  | null
  | scalar
  | list (l : List JVal)
deriving DecidableEq, Repr

/-- Python's `random.choice(l)`, with the draw supplied as a natural `r`:
raises `IndexError` (here `none`) on an empty list, otherwise returns the
element at index `r % l.length`. Quantifying over all `r` models all
possible random draws. -/
def randomChoice (l : List Question) (r : Nat) : Option Question :=
  l.get? (r % l.length)

/-- Observable outcome of POST /quizzes. `question` and `exhausted` are the
two HTTP 200 bodies; `unprocessable` is the HTTP 422 produced by the
`except` handler around the endpoint body; `diverges` marks a run of the
`while` loop that exceeds the available fuel (the loop never exits on its
own once entered unless `len(previous_questions) == len(selection)`). -/
inductive QuizOutcome where
  | question (q : Question)
  | exhausted
  | unprocessable
  | diverges
deriving DecidableEq, Repr

/-- The `while answered_question:` loop of `play`. Each iteration draws
`current_question = get_next_random_question()` (step `i` of the draw
stream) and then returns the exhaustion body iff
`len(prev_questions) == len(selection)`; nothing in the body ever clears
`answered_question`, so otherwise it iterates again. `fuel` bounds the
number of iterations we unfold; running out of fuel yields `diverges`. -/
def playLoop (selection : List Question) (prev : List JVal) (draws : Nat → Nat)
    (i : Nat) : Nat → QuizOutcome
  | 0 => .diverges
  | fuel + 1 =>
    match randomChoice selection (draws i) with
    | none => .unprocessable
    | some _ =>
      if prev.length = selection.length then .exhausted
      else playLoop selection prev draws (i + 1) fuel

/-- The candidate pool computed by `play`: `Question.query.all()` when the
requested category id is the sentinel 0, otherwise
`Question.query.filter(Question.category == category_id).all()`. -/
def quizSelection (store : Store) (category_id : Nat) : List Question :=
  if category_id = 0 then store.questions
  else store.questions.filter (fun q => q.category = category_id)

/-- The body of the `play` endpoint (POST /quizzes).
`category_id` is `none` when `quiz_category` is absent (then
`category['id']` raises `TypeError`, caught as 422). The first draw is step
0 of `draws`; `random.choice` on an empty selection raises `IndexError`
(422), and the membership test `current_question['id'] in prev_questions`
raises `TypeError` (422) unless `prev_questions` is a list. If the first
draw is not in the history the question is returned at once; otherwise
`answered_question` is set and the retry loop runs. -/
def play (store : Store) (category_id : Option Nat) (prev : PrevField)
    (draws : Nat → Nat) (fuel : Nat) : QuizOutcome :=
  match category_id with
  | none => .unprocessable
  | some cid =>
    let selection := quizSelection store cid
    match randomChoice selection (draws 0) with
    | none => .unprocessable
    | some current_question =>
      match prev with
      | .null => .unprocessable
      | .scalar => .unprocessable
      | .list l =>
        if JVal.num current_question.id ∈ l then
          playLoop selection l draws 1 fuel
        else .question current_question

/-- `QUESTIONS_PER_PAGE` from the source (module-level named constant). -/
def QUESTIONS_PER_PAGE : Nat := 10

/-- Normalisation of one bound of a Python slice `l[i:j]`: a negative bound
counts from the end, then both bounds are clamped to `[0, n]`. -/
def pyBound (n : Nat) (i : Int) : Nat :=
  (max 0 (min (if i < 0 then i + n else i) (n : Int))).toNat

/-- Python's `l[i:j]` (step 1) for integer bounds. -/
def pySlice {α : Type} (l : List α) (i j : Int) : List α :=
  (l.drop (pyBound l.length i)).take (pyBound l.length j - pyBound l.length i)

/-- `paginate_questions`: `page` arrives as an `int` from
`request.args.get('page', 1, type=int)` (so it may be zero or negative);
`start = (page - 1) * QUESTIONS_PER_PAGE`, `end = start + QUESTIONS_PER_PAGE`,
result `questions[start:end]` with Python slice semantics. -/
def paginate_questions {α : Type} (selection : List α) (page : Int) : List α :=
  pySlice selection ((page - 1) * (QUESTIONS_PER_PAGE : Int))
    ((page - 1) * (QUESTIONS_PER_PAGE : Int) + QUESTIONS_PER_PAGE)

/-- Observable outcome of DELETE /questions/<id>: 404 when no row matches,
otherwise the success body, whose `deleted` field is `question.id`. -/
inductive DeleteOutcome where
  | notFound
  | deleted (id : Nat)
deriving DecidableEq, Repr

/-- The `delete_question` endpoint:
`Question.query.filter(Question.id == question_id).one_or_none()`, `abort(404)`
when `None`, otherwise `question.delete()` removes that row and the response
carries `'deleted': question.id`. Returns the outcome and the store after
the call. -/
def delete_question (store : Store) (question_id : Nat) :
    DeleteOutcome × Store :=
  match store.questions.find? (fun q => q.id = question_id) with
  | none => (.notFound, store)
  | some q =>
    (.deleted q.id,
     { store with questions := store.questions.eraseP (fun r => r.id = q.id) })

/-- Success body of GET /categories/<id>/questions: the page slice and the
`total_questions` field. -/
structure CategoryQuestionsBody where
  questions : List Question
  total_questions : Nat
deriving DecidableEq, Repr

/-- The `get_questions_by_category` endpoint: selection is the questions of
the category, `current_questions` the page slice, 404 when the category id
matches no stored category, and — as written in the source —
`'total_questions': len(current_questions)`. -/
def get_questions_by_category (store : Store) (category_id : Nat)
    (page : Int) : Option CategoryQuestionsBody :=
  if category_id ∈ store.categories then
    some ⟨paginate_questions
            (store.questions.filter (fun q => q.category = category_id)) page,
          (paginate_questions
            (store.questions.filter (fun q => q.category = category_id))
            page).length⟩
  else none

end Trivia
namespace Trivia

/-- On a non-empty selection, `random.choice` always succeeds and returns an
element of the selection. -/
theorem randomChoice_mem (l : List Question) (r : Nat) (h : l ≠ []) :
    ∃ q, randomChoice l r = some q ∧ q ∈ l := by
  have hlen : 0 < l.length := List.length_pos.mpr h
  have hlt : r % l.length < l.length := Nat.mod_lt _ hlen
  exact ⟨l.get ⟨r % l.length, hlt⟩, List.get?_eq_get hlt, List.get_mem _ _ _⟩

/-- The retry loop never produces the question-success body: once
`answered_question` is set it is never cleared, so the loop can only
exhaust, fail, or run out of fuel. -/
theorem playLoop_no_question (selection : List Question) (prev : List JVal)
    (draws : Nat → Nat) (i fuel : Nat) (q : Question) :
    playLoop selection prev draws i fuel ≠ .question q := by
  induction fuel generalizing i with
  | zero => simp [playLoop]
  | succ n ih =>
    simp only [playLoop]
    cases randomChoice selection (draws i) with
    | none => simp
    | some _ =>
      by_cases hl : prev.length = selection.length <;> simp [hl, ih]

/-- When the history length differs from the selection length, the retry
loop never terminates: it yields `diverges` for every amount of fuel. -/
theorem playLoop_diverges (selection : List Question) (prev : List JVal)
    (draws : Nat → Nat) (hne : selection ≠ [])
    (hlen : prev.length ≠ selection.length) (i fuel : Nat) :
    playLoop selection prev draws i fuel = .diverges := by
  induction fuel generalizing i with
  | zero => simp [playLoop]
  | succ n ih =>
    obtain ⟨q, hq, -⟩ := randomChoice_mem selection (draws i) hne
    simp only [playLoop, hq]
    simp [hlen, ih]

end Trivia
namespace Trivia

/-- C1. For every scope, every history H (a set of question ids), every
draw stream and every fuel bound: whenever POST /quizzes returns the
success body containing a question, that question's id is not in H. -/
theorem play_no_repeat (store : Store) (cid : Nat) (H : List Nat)
    (draws : Nat → Nat) (fuel : Nat) (q : Question)
    (h : play store (some cid) (.list (H.map JVal.num)) draws fuel
          = .question q) :
    q.id ∉ H := by
  simp only [play] at h
  cases hc : randomChoice (quizSelection store cid) (draws 0) with
  | none => simp [hc] at h
  | some cq =>
    simp only [hc] at h
    by_cases hm : JVal.num cq.id ∈ H.map JVal.num
    · simp only [hm, if_pos] at h
      exact absurd h (playLoop_no_question _ _ _ _ _ _)
    · simp only [hm, if_neg, not_false_eq_true] at h
      cases h
      intro hid
      exact hm (List.mem_map_of_mem JVal.num hid)

/-- Witness for C1 on a concrete run that returns a question. -/
theorem play_no_repeat_witness :
    (⟨1, 1⟩ : Question).id ∉ ([] : List Nat) :=
  play_no_repeat ⟨[⟨1, 1⟩, ⟨2, 1⟩], [1]⟩ 1 [] (fun _ => 0) 0 ⟨1, 1⟩ (by rfl)

end Trivia
namespace Trivia

/-- C2 is violated by the code: with pool {id 1, id 2} for category 1 and
history [1], a draw stream that always picks the first question makes the
request spin forever — for every fuel bound the run is still `diverges`,
because the loop only exits when `len(previous_questions) == len(selection)`
and nothing ever clears `answered_question`. -/
theorem play_unbounded_loop :
    ∀ fuel, play ⟨[⟨1, 1⟩, ⟨2, 1⟩], [1]⟩ (some 1) (.list [.num 1])
        (fun _ => 0) fuel = .diverges := by
  intro fuel
  simp only [play, quizSelection, randomChoice]
  norm_num
  exact playLoop_diverges _ _ _ (by decide) (by decide) 1 fuel

end Trivia
namespace Trivia

/-- C3 is violated by the code. First run: category 2 is a stored category
whose pool is empty, and the history `[]` trivially contains every id of
that pool, yet the code answers 422 (`random.choice` on the empty selection
raises `IndexError`) instead of the exhaustion body. Second run: the pool
is {id 1} and the history [1, 7] contains every pool id, yet the request
never returns at all (the loop requires the two lengths to be equal). -/
theorem play_exhaustion_violated :
    ∀ (draws : Nat → Nat) (fuel : Nat),
      play ⟨[⟨1, 1⟩], [1, 2]⟩ (some 2) (.list []) draws fuel
        = .unprocessable ∧
      play ⟨[⟨1, 1⟩], [1]⟩ (some 1) (.list [.num 1, .num 7]) draws fuel
        = .diverges := by
  intro draws fuel
  constructor
  · simp [play, quizSelection, randomChoice]
  · have hsel : quizSelection ⟨[⟨1, 1⟩], [1]⟩ 1 = [⟨1, 1⟩] := by decide
    have hch : randomChoice [⟨1, 1⟩] (draws 0) = some ⟨1, 1⟩ := by
      simp [randomChoice, Nat.mod_one]
    simp only [play, hsel, hch]
    have hmem : JVal.num (1 : Nat) ∈ [JVal.num 1, JVal.num 7] := by decide
    simp only [hmem, if_pos]
    exact playLoop_diverges _ _ _ (by decide) (by decide) 1 fuel

end Trivia
namespace Trivia

/-- C4 is violated by the code: with the fixed pool {id 1, id 3} for
category 1 and the fixed history [1, 2], a run whose first draw picks
index 0 ends in the exhaustion body while a run whose first draw picks
index 1 returns question 3 — whether the call exhausts depends on the
random draws, not only on (pool, history). -/
theorem play_exhaustion_not_deterministic :
    play ⟨[⟨1, 1⟩, ⟨3, 1⟩], [1]⟩ (some 1) (.list [.num 1, .num 2])
        (fun _ => 0) 1 = .exhausted ∧
    play ⟨[⟨1, 1⟩, ⟨3, 1⟩], [1]⟩ (some 1) (.list [.num 1, .num 2])
        (fun _ => 1) 1 = .question ⟨3, 1⟩ := by
  exact ⟨rfl, rfl⟩

/-- C5 as stated is false: `previous_questions = ["5"]` is a collection
holding a non-id element, yet the request is not answered with 422 — the
string is simply never equal to a question id, and the code returns
question 5 with a 200 success body. -/
theorem play_malformed_history_not_rejected :
    play ⟨[⟨5, 1⟩], [1]⟩ (some 1) (.list [.str "5"]) (fun _ => 0) 0
      = .question ⟨5, 1⟩ := rfl

/-- C5, amended. A scope naming a category id that is stored nowhere (and
is not the sentinel 0) yields 422 provided the store is well formed, since
its pool is then empty and `random.choice` raises; a history that is absent
(`null`) or not a collection also yields 422 (`in` raises `TypeError`).
A collection with non-id elements, however, is accepted (previous theorem). -/
theorem play_unknown_category_or_noncollection_422 (store : Store)
    (cid : Nat) (prev : PrevField) (draws : Nat → Nat) (fuel : Nat) :
    (store.WF → cid ≠ 0 → cid ∉ store.categories →
      play store (some cid) prev draws fuel = .unprocessable) ∧
    (prev = .null ∨ prev = .scalar →
      play store (some cid) prev draws fuel = .unprocessable) := by
  constructor
  · intro hwf hc0 hcat
    have hsel : quizSelection store cid = [] := by
      simp only [quizSelection, if_neg hc0]
      rw [List.filter_eq_nil_iff]
      intro q hq
      simp only [decide_eq_true_eq]
      intro hqc
      exact hcat (hqc ▸ hwf q hq)
    simp [play, hsel, randomChoice]
  · rintro (rfl | rfl) <;>
      · simp only [play]
        cases randomChoice (quizSelection store cid) (draws 0) <;> rfl

/-- Witness for the amended C5: category 2 is not stored, and separately a
`null` history, both answered 422 on a concrete store. -/
theorem play_unknown_category_or_noncollection_422_witness :
    play ⟨[⟨1, 1⟩], [1]⟩ (some 2) (.list []) (fun _ => 0) 0
      = .unprocessable ∧
    play ⟨[⟨1, 1⟩], [1]⟩ (some 1) .null (fun _ => 0) 0
      = .unprocessable :=
  ⟨(play_unknown_category_or_noncollection_422 ⟨[⟨1, 1⟩], [1]⟩ 2 (.list [])
      (fun _ => 0) 0).1 (by decide) (by decide) (by decide),
   (play_unknown_category_or_noncollection_422 ⟨[⟨1, 1⟩], [1]⟩ 1 .null
      (fun _ => 0) 0).2 (Or.inl rfl)⟩

end Trivia
namespace Trivia

/-- C6. In a well-formed store, the candidate pool for the sentinel scope 0
is exactly the union of every stored category's questions (equivalently,
all questions in the store) — not the result of filtering for a literal
category 0 — and for any non-zero scope k it is exactly the questions whose
category is k. -/
theorem quizSelection_scope (store : Store) (hwf : store.WF) :
    (∀ q, q ∈ quizSelection store 0 ↔
        ∃ c ∈ store.categories, q ∈ store.questions ∧ q.category = c) ∧
    (∀ k, k ≠ 0 → ∀ q,
        q ∈ quizSelection store k ↔
          q ∈ store.questions ∧ q.category = k) := by
  constructor
  · intro q
    simp only [quizSelection, if_pos rfl]
    constructor
    · intro hq
      exact ⟨q.category, hwf q hq, hq, rfl⟩
    · rintro ⟨c, -, hq, -⟩
      exact hq
  · intro k hk q
    simp only [quizSelection, if_neg hk, List.mem_filter, decide_eq_true_eq]

/-- Witness for C6 on a concrete store: question 3 of category 2 belongs to
the scope-0 pool through its category, and the scope-2 pool is the exact
category filter. -/
theorem quizSelection_scope_witness :
    ((⟨3, 2⟩ : Question) ∈ quizSelection ⟨[⟨1, 1⟩, ⟨3, 2⟩], [1, 2]⟩ 0 ↔
      ∃ c ∈ [1, 2], (⟨3, 2⟩ : Question) ∈ [(⟨1, 1⟩ : Question), ⟨3, 2⟩] ∧
        (⟨3, 2⟩ : Question).category = c) ∧
    ((⟨1, 1⟩ : Question) ∈ quizSelection ⟨[⟨1, 1⟩, ⟨3, 2⟩], [1, 2]⟩ 2 ↔
      (⟨1, 1⟩ : Question) ∈ [(⟨1, 1⟩ : Question), ⟨3, 2⟩] ∧
        (⟨1, 1⟩ : Question).category = 2) :=
  ⟨(quizSelection_scope ⟨[⟨1, 1⟩, ⟨3, 2⟩], [1, 2]⟩ (by decide)).1 ⟨3, 2⟩,
   (quizSelection_scope ⟨[⟨1, 1⟩, ⟨3, 2⟩], [1, 2]⟩ (by decide)).2 2
     (by decide) ⟨1, 1⟩⟩

end Trivia
namespace Trivia

/-- A Python slice with non-negative bounds is an ordinary drop/take. -/
theorem pySlice_of_nonneg {α : Type} (l : List α) (i j : Int)
    (hi : 0 ≤ i) (hj : 0 ≤ j) :
    pySlice l i j = (l.drop i.toNat).take (j.toNat - i.toNat) := by
  unfold pySlice pyBound
  rw [if_neg (by omega), if_neg (by omega)]
  by_cases hin : i.toNat ≤ l.length
  · have ha : (max 0 (min i (l.length : Int))).toNat = i.toNat := by omega
    have hb : (max 0 (min j (l.length : Int))).toNat
        = min j.toNat l.length := by omega
    rw [ha, hb]
    rw [List.take_eq_take]
    simp only [List.length_drop]
    omega
  · have ha : (max 0 (min i (l.length : Int))).toNat = l.length := by omega
    rw [ha]
    simp only [List.drop_length, List.drop_eq_nil_of_le (show l.length ≤ i.toNat by omega),
      List.take_nil]

end Trivia
namespace Trivia

/-- C7. For every page `p ≥ 1` the helper returns exactly the half-open
slice `[(p-1)*10, p*10)` clipped to the sequence (as a drop/take), the page
size is the named constant 10, the three 25-element scenarios hold, and a
page beyond the end yields the empty slice. -/
theorem paginate_questions_spec (α : Type) (l : List α) (p : Int)
    (hp : 1 ≤ p) :
    paginate_questions l p = (l.drop ((p - 1) * 10).toNat).take 10 ∧
    QUESTIONS_PER_PAGE = 10 ∧
    paginate_questions (List.range 25) 1 = [0, 1, 2, 3, 4, 5, 6, 7, 8, 9] ∧
    paginate_questions (List.range 25) 3 = [20, 21, 22, 23, 24] ∧
    paginate_questions (List.range 25) 4 = ([] : List Nat) ∧
    ((l.length : Int) ≤ (p - 1) * 10 → paginate_questions l p = []) := by
  have hstart : (0 : Int) ≤ (p - 1) * 10 := by omega
  have hmain : paginate_questions l p
      = (l.drop ((p - 1) * 10).toNat).take 10 := by
    unfold paginate_questions
    simp only [QUESTIONS_PER_PAGE, Nat.cast_ofNat]
    rw [pySlice_of_nonneg l _ _ hstart (by omega)]
    congr 1
    omega
  refine ⟨hmain, rfl, by decide, by decide, by decide, ?_⟩
  intro hlen
  rw [hmain, List.drop_eq_nil_of_le (by omega), List.take_nil]

/-- Witness for C7 at page 2 of a 25-element sequence. -/
theorem paginate_questions_spec_witness :
    paginate_questions (List.range 25) 2
        = ((List.range 25).drop (((2 : Int) - 1) * 10).toNat).take 10 ∧
    QUESTIONS_PER_PAGE = 10 ∧
    paginate_questions (List.range 25) 1 = [0, 1, 2, 3, 4, 5, 6, 7, 8, 9] ∧
    paginate_questions (List.range 25) 3 = [20, 21, 22, 23, 24] ∧
    paginate_questions (List.range 25) 4 = ([] : List Nat) ∧
    (((List.range 25).length : Int) ≤ ((2 : Int) - 1) * 10 →
      paginate_questions (List.range 25) 2 = []) :=
  paginate_questions_spec Nat (List.range 25) 2 (by decide)

end Trivia
namespace Trivia

/-- C8 as stated is false: on a 25-element sequence, page `-1` returns
elements 5–14 — a slice that is neither the page-1 slice nor empty nor any
rejection; Python's negative slice offsets leak through the helper. -/
theorem paginate_negative_page_counterexample :
    paginate_questions (List.range 25) (-1)
        = [5, 6, 7, 8, 9, 10, 11, 12, 13, 14] ∧
    paginate_questions (List.range 25) 1 = [0, 1, 2, 3, 4, 5, 6, 7, 8, 9] ∧
    paginate_questions (List.range 25) (-1)
        ≠ paginate_questions (List.range 25) 1 ∧
    paginate_questions (List.range 25) (-1) ≠ [] := by
  refine ⟨by decide, by decide, by decide, by decide⟩

/-- A Python slice whose upper bound normalises to 0 is empty. -/
theorem pySlice_eq_nil_of_bound_zero {α : Type} (l : List α) (i j : Int)
    (h : pyBound l.length j = 0) : pySlice l i j = [] := by
  unfold pySlice
  rw [h]
  simp [Nat.zero_sub]

/-- C8, amended. For `p < 1` the helper neither behaves as page 1 nor
rejects: it applies Python slice semantics to the negative offsets — page 0
always yields the empty slice, and a negative page yields the 10-element
window starting `(p-1)*10` before the end of the sequence (empty when the
whole window lies before the start). -/
theorem paginate_negative_page (α : Type) (l : List α) (p : Int)
    (hp : p < 1) :
    (p = 0 → paginate_questions l p = []) ∧
    (p < 0 → 0 ≤ (l.length : Int) + (p - 1) * 10 →
      paginate_questions l p
        = (l.drop ((l.length : Int) + (p - 1) * 10).toNat).take 10) ∧
    (p < 0 → (l.length : Int) + p * 10 ≤ 0 →
      paginate_questions l p = []) := by
  refine ⟨?_, ?_, ?_⟩
  · rintro rfl
    unfold paginate_questions
    simp only [QUESTIONS_PER_PAGE, Nat.cast_ofNat]
    apply pySlice_eq_nil_of_bound_zero
    unfold pyBound
    split <;> omega
  · intro hneg hwin
    unfold paginate_questions
    simp only [QUESTIONS_PER_PAGE, Nat.cast_ofNat]
    have ha : pyBound l.length ((p - 1) * 10)
        = ((l.length : Int) + (p - 1) * 10).toNat := by
      unfold pyBound
      split <;> omega
    have hb : pyBound l.length ((p - 1) * 10 + 10)
        = ((l.length : Int) + (p - 1) * 10).toNat + 10 := by
      unfold pyBound
      split <;> omega
    unfold pySlice
    rw [ha, hb]
    congr 1
    omega
  · intro hneg hwin
    unfold paginate_questions
    simp only [QUESTIONS_PER_PAGE, Nat.cast_ofNat]
    apply pySlice_eq_nil_of_bound_zero
    unfold pyBound
    split <;> omega

end Trivia
namespace Trivia

/-- Witness for the amended C8 at page -1 of a 25-element sequence. -/
theorem paginate_negative_page_witness :
    paginate_questions (List.range 25) (-1)
      = ((List.range 25).drop
          (((List.range 25).length : Int) + ((-1 : Int) - 1) * 10).toNat).take
          10 :=
  (paginate_negative_page Nat (List.range 25) (-1) (by decide)).2.1
    (by decide) (by decide)

/-- In a list of questions with pairwise distinct ids, erasing the first
question whose id is `k` leaves exactly the questions whose id is not `k`. -/
theorem mem_eraseP_id {l : List Question}
    (h : (l.map Question.id).Nodup) (k : Nat) (q : Question) :
    q ∈ l.eraseP (fun r => r.id = k) ↔ q ∈ l ∧ q.id ≠ k := by
  induction l with
  | nil => simp
  | cons a t ih =>
    simp only [List.map_cons, List.nodup_cons] at h
    by_cases ha : a.id = k
    · rw [List.eraseP_cons_of_pos (by simp [ha])]
      constructor
      · intro hq
        refine ⟨List.mem_cons_of_mem _ hq, ?_⟩
        intro hqk
        have : q.id ∈ List.map Question.id t := List.mem_map_of_mem _ hq
        rw [hqk, ← ha] at this
        exact h.1 this
      · rintro ⟨hq, hqk⟩
        rcases List.mem_cons.mp hq with rfl | hq
        · exact absurd ha hqk
        · exact hq
    · rw [List.eraseP_cons_of_neg (by simp [ha])]
      simp only [List.mem_cons, ih h.2]
      constructor
      · rintro (rfl | ⟨hq, hqk⟩)
        · exact ⟨Or.inl rfl, ha⟩
        · exact ⟨Or.inr hq, hqk⟩
      · rintro ⟨rfl | hq, hqk⟩
        · exact Or.inl rfl
        · exact Or.inr ⟨hq, hqk⟩

end Trivia
namespace Trivia

/-- C9. When no stored question has the requested id, DELETE answers 404
and the store is completely unchanged; when one does (ids being unique),
the response is the success body with `deleted` equal to that id, the
categories are untouched, and the remaining questions are exactly the
stored questions whose id differs. -/
theorem delete_question_spec (store : Store) (qid : Nat)
    (hids : (store.questions.map Question.id).Nodup) :
    ((∀ q ∈ store.questions, q.id ≠ qid) →
       delete_question store qid = (.notFound, store)) ∧
    (∀ q0 ∈ store.questions, q0.id = qid →
       (delete_question store qid).1 = .deleted qid ∧
       (delete_question store qid).2.categories = store.categories ∧
       ∀ q, q ∈ (delete_question store qid).2.questions ↔
            q ∈ store.questions ∧ q.id ≠ qid) := by
  constructor
  · intro hnone
    have hf : store.questions.find? (fun q => q.id = qid) = none := by
      rw [List.find?_eq_none]
      intro q hq
      simp [hnone q hq]
    simp [delete_question, hf]
  · intro q0 hq0 hq0id
    have hsome : (store.questions.find? (fun q => q.id = qid)).isSome := by
      rw [List.find?_isSome]
      exact ⟨q0, hq0, by simp [hq0id]⟩
    obtain ⟨q', hq'⟩ := Option.isSome_iff_exists.mp hsome
    have hq'id : q'.id = qid := by
      have := List.find?_some hq'
      simpa using this
    simp only [delete_question, hq']
    refine ⟨by rw [hq'id], ?_, ?_⟩
    · trivial
    · intro q
      simp only [hq'id]
      exact mem_eraseP_id hids qid q

/-- Witness for C9: deleting id 2 from a two-question store. -/
theorem delete_question_spec_witness :
    (delete_question ⟨[⟨1, 1⟩, ⟨2, 1⟩], [1]⟩ 2).1 = .deleted 2 ∧
    ((⟨1, 1⟩ : Question)
        ∈ (delete_question ⟨[⟨1, 1⟩, ⟨2, 1⟩], [1]⟩ 2).2.questions ↔
      (⟨1, 1⟩ : Question) ∈ [(⟨1, 1⟩ : Question), ⟨2, 1⟩] ∧
        (⟨1, 1⟩ : Question).id ≠ 2) :=
  ⟨((delete_question_spec ⟨[⟨1, 1⟩, ⟨2, 1⟩], [1]⟩ 2 (by decide)).2
      ⟨2, 1⟩ (by decide) rfl).1,
   ((delete_question_spec ⟨[⟨1, 1⟩, ⟨2, 1⟩], [1]⟩ 2 (by decide)).2
      ⟨2, 1⟩ (by decide) rfl).2.2 ⟨1, 1⟩⟩

end Trivia
namespace Trivia

/-- A page slice never holds more than `QUESTIONS_PER_PAGE = 10` elements,
whatever the page number. -/
theorem paginate_questions_length_le {α : Type} (l : List α) (p : Int) :
    (paginate_questions l p).length ≤ 10 := by
  unfold paginate_questions pySlice
  simp only [List.length_take, List.length_drop]
  have h1 : pyBound l.length
        ((p - 1) * QUESTIONS_PER_PAGE + QUESTIONS_PER_PAGE)
      ≤ pyBound l.length ((p - 1) * QUESTIONS_PER_PAGE) + 10 := by
    unfold pyBound QUESTIONS_PER_PAGE
    split <;> split <;> omega
  omega

/-- C10. Whenever GET /categories/(id)/questions answers successfully, its
`total_questions` field equals the length of the returned page slice (hence
is at most 10) and, as soon as the category holds more than one page of
questions, differs from the category's true question count. -/
theorem get_questions_by_category_total (store : Store) (cid : Nat)
    (page : Int) (body : CategoryQuestionsBody)
    (h : get_questions_by_category store cid page = some body) :
    body.total_questions = body.questions.length ∧
    body.total_questions ≤ 10 ∧
    (10 < (store.questions.filter (fun q => q.category = cid)).length →
      body.total_questions
        ≠ (store.questions.filter (fun q => q.category = cid)).length) := by
  unfold get_questions_by_category at h
  by_cases hc : cid ∈ store.categories
  · rw [if_pos hc, Option.some_inj] at h
    subst h
    refine ⟨rfl, paginate_questions_length_le _ _, ?_⟩
    dsimp only
    intro hbig
    have := paginate_questions_length_le
      (store.questions.filter (fun q => q.category = cid)) page
    omega
  · rw [if_neg hc] at h
    cases h

end Trivia
namespace Trivia

/-- Witness for C10: a category holding 11 questions reports
`total_questions = 10` on page 1, not 11. -/
theorem get_questions_by_category_total_witness :
    (⟨[⟨0, 1⟩, ⟨1, 1⟩, ⟨2, 1⟩, ⟨3, 1⟩, ⟨4, 1⟩, ⟨5, 1⟩, ⟨6, 1⟩, ⟨7, 1⟩,
       ⟨8, 1⟩, ⟨9, 1⟩], 10⟩ : CategoryQuestionsBody).total_questions
      = (⟨[⟨0, 1⟩, ⟨1, 1⟩, ⟨2, 1⟩, ⟨3, 1⟩, ⟨4, 1⟩, ⟨5, 1⟩, ⟨6, 1⟩, ⟨7, 1⟩,
          ⟨8, 1⟩, ⟨9, 1⟩], 10⟩ : CategoryQuestionsBody).questions.length ∧
    (10 : Nat) ≤ 10 ∧
    (10 < (([⟨0, 1⟩, ⟨1, 1⟩, ⟨2, 1⟩, ⟨3, 1⟩, ⟨4, 1⟩, ⟨5, 1⟩, ⟨6, 1⟩, ⟨7, 1⟩,
            ⟨8, 1⟩, ⟨9, 1⟩, ⟨10, 1⟩] : List Question).filter
              (fun q => q.category = 1)).length →
      (10 : Nat)
        ≠ (([⟨0, 1⟩, ⟨1, 1⟩, ⟨2, 1⟩, ⟨3, 1⟩, ⟨4, 1⟩, ⟨5, 1⟩, ⟨6, 1⟩, ⟨7, 1⟩,
            ⟨8, 1⟩, ⟨9, 1⟩, ⟨10, 1⟩] : List Question).filter
              (fun q => q.category = 1)).length) :=
  get_questions_by_category_total
    ⟨[⟨0, 1⟩, ⟨1, 1⟩, ⟨2, 1⟩, ⟨3, 1⟩, ⟨4, 1⟩, ⟨5, 1⟩, ⟨6, 1⟩, ⟨7, 1⟩,
      ⟨8, 1⟩, ⟨9, 1⟩, ⟨10, 1⟩], [1]⟩ 1 1
    ⟨[⟨0, 1⟩, ⟨1, 1⟩, ⟨2, 1⟩, ⟨3, 1⟩, ⟨4, 1⟩, ⟨5, 1⟩, ⟨6, 1⟩, ⟨7, 1⟩,
      ⟨8, 1⟩, ⟨9, 1⟩], 10⟩ (by decide)

end Trivia
